import Mathlib

/-!
Shallow embedding of the RP2040 rocket data logger (src/Python/V1 and
src/Python/V2): the ADXL343 accelerometer driver, the MPL3115A2
altimeter driver, the fixed-rate sampling scheduler, the log-file
numbering scan, and the flight state machine fragments that the
verified properties concern.  Machine bytes are modelled as `Nat`
(Python integers are unbounded and every intermediate value in the
embedded code is non-negative, so Python bit operations coincide with
the natural-number ones; the one place this matters is noted at the
temperature decoder).  Fallible bus transactions are modelled as
`Except Unit` values supplied by the caller.
-/

namespace RocketLogger

namespace ADXL343

/-- The accelerometer register file: the byte value of each register.
The bus delivers single bytes, so every stored value is below 256. -/
def RegFile : Type := Nat → Nat

/-- A single register write on the register file. -/
def writeReg (r : RegFile) (reg v : Nat) : RegFile :=
  fun x => if x = reg then v else r x

/-- The register writes performed by `enable_motion_detection`
(V2 adxl343.py lines 53-59, identical in V1 lines 65-77): write
0b01110000 to the activity configuration register 0x27, write the
threshold to register 0x24, and write the constant 0x10 to the
interrupt-enable register 0x2E. -/
def enable_motion_detection (threshold : Nat) (r : RegFile) : RegFile :=
  writeReg (writeReg (writeReg r 0x27 0b01110000) 0x24 threshold) 0x2E 0x10

/-- The register effect of `disable_motion_detection` (V1 adxl343.py
lines 79-84): read the interrupt-enable register 0x2E and write back
the value with the activity bit cleared.  The Python expression is
`current & ~0x10`; the register read yields a byte below 256, on which
this equals masking with 0xEF. -/
def disable_motion_detection (r : RegFile) : RegFile :=
  writeReg r 0x2E ((r 0x2E) &&& 0xEF)

/-- A bus transaction performed by the driver, for tracking which
registers a call touches. -/
inductive Tx where
  | readIntSource
deriving DecidableEq

/-- `motion_detected` (V2 adxl343.py lines 61-71, V1 lines 86-96):
when the key `motion` is absent from the enabled-interrupt set, return
False without any bus traffic; otherwise read the interrupt-source
register 0x30 (one transaction) and test the activity bit 0x10,
returning False when the read raises OSError (V2).  The result pairs
the returned Bool with the list of bus transactions performed. -/
def motion_detected (motionArmed : Bool) (bus : Except Unit Nat) :
    Bool × List Tx :=
  if motionArmed then
    match bus with
    | Except.ok src => (decide (src &&& 0x10 > 0), [Tx.readIntSource])
    | Except.error _ => (false, [Tx.readIntSource])
  else
    (false, [])

/-- Decode of one little-endian signed 16-bit field of `unpack "<hhh"`. -/
def toSigned16 (v : Nat) : Int :=
  if v < 0x8000 then (v : Int) else (v : Int) - 0x10000

/-- The `unpack "<hhh", data` decode of the 6 data bytes
(adxl343.py, both versions): three little-endian signed 16-bit values. -/
def unpackAccel (b0 b1 b2 b3 b4 b5 : Nat) : Int × Int × Int :=
  (toSigned16 (b0 + 256 * b1), toSigned16 (b2 + 256 * b3),
    toSigned16 (b4 + 256 * b5))

/-- V2 `get_raw_acceleration` (V2 adxl343.py lines 44-51): read 6
bytes and unpack; on OSError return the neutral reading (0, 0, 0). -/
def get_raw_acceleration_V2
    (bus : Except Unit (Nat × Nat × Nat × Nat × Nat × Nat)) :
    Int × Int × Int :=
  match bus with
  | Except.ok (b0, b1, b2, b3, b4, b5) => unpackAccel b0 b1 b2 b3 b4 b5
  | Except.error _ => (0, 0, 0)

/-- V1 `get_raw_acceleration` (V1 adxl343.py lines 54-63): read 6
bytes and unpack; there is no exception handler, so a bus OSError
propagates to the caller. -/
def get_raw_acceleration_V1
    (bus : Except Unit (Nat × Nat × Nat × Nat × Nat × Nat)) :
    Except Unit (Int × Int × Int) :=
  match bus with
  | Except.ok (b0, b1, b2, b3, b4, b5) =>
      Except.ok (unpackAccel b0 b1 b2 b3 b4 b5)
  | Except.error e => Except.error e

end ADXL343

namespace MPL_V2

/-- The 24-bit big-endian assembly of the three pressure bytes
(V2 mpl3115a2.py line 53, before the shift). -/
def raw24 (d0 d1 d2 : Nat) : Nat :=
  (d0 <<< 16) ||| (d1 <<< 8) ||| d2

/-- `pressure_raw` (V2 mpl3115a2.py line 53): the 24-bit big-endian
value of the three bytes, shifted right by 4. -/
def pressure_raw (d0 d1 d2 : Nat) : Nat :=
  raw24 d0 d1 d2 >>> 4

/-- `temp_raw` (V2 mpl3115a2.py lines 54-58): assemble the two bytes
big-endian, shift right by 4, and when bit 11 of the shifted value is
set, or the value with 0xF000.  All values here are non-negative
Python integers, so the Python operations are the natural-number ones;
in particular the final or sets bits 12 to 15 but cannot produce a
negative integer. -/
def temp_raw (d3 d4 : Nat) : Nat :=
  let t := ((d3 <<< 8) ||| d4) >>> 4
  if t &&& 0x800 ≠ 0 then t ||| 0xF000 else t

/-- The value of the Python integer `temp_raw` viewed inside ℤ, the
type the specification speaks about when it calls the decoded
temperature negative. -/
def temp_raw_int (d3 d4 : Nat) : Int :=
  (temp_raw d3 d4 : Int)

/-- The pure decode of `get_raw_data` (V2 mpl3115a2.py lines 53-60)
on the five data bytes. -/
def get_raw_decode (d0 d1 d2 d3 d4 : Nat) : Nat × Nat :=
  (pressure_raw d0 d1 d2, temp_raw d3 d4)

/-- V2 `get_raw_data` (V2 mpl3115a2.py lines 43-63): read five bytes
and decode; on OSError return the neutral reading (0, 0). -/
def get_raw_data (bus : Except Unit (Nat × Nat × Nat × Nat × Nat)) :
    Nat × Nat :=
  match bus with
  | Except.ok (d0, d1, d2, d3, d4) => get_raw_decode d0 d1 d2 d3 d4
  | Except.error _ => (0, 0)

end MPL_V2

namespace MPL_V1

/-- The pure decode of V1 `get_raw_data` (V1 mpl3115a2.py lines
69-79): reconstruct the pressure from three bytes and shift right by
4; reconstruct the temperature from two bytes, shift right by 4, and
when bit 11 is set, or with 0xF000 (the same non-negative Python
arithmetic as in V2). -/
def get_raw_decode (d0 d1 d2 d3 d4 : Nat) : Nat × Nat :=
  let adc_P0 := (d0 <<< 16) ||| (d1 <<< 8) ||| d2
  let adc_P := adc_P0 >>> 4
  let adc_T0 := (d3 <<< 8) ||| d4
  let adc_T1 := adc_T0 >>> 4
  let adc_T := if adc_T1 &&& 0x800 ≠ 0 then adc_T1 ||| 0xF000 else adc_T1
  (adc_P, adc_T)

/-- V1 `get_raw_data` (V1 mpl3115a2.py lines 59-84): read five bytes
and decode; there is no exception handler, so a bus OSError
propagates to the caller. -/
def get_raw_data (bus : Except Unit (Nat × Nat × Nat × Nat × Nat)) :
    Except Unit (Nat × Nat) :=
  match bus with
  | Except.ok (d0, d1, d2, d3, d4) => Except.ok (get_raw_decode d0 d1 d2 d3 d4)
  | Except.error e => Except.error e

end MPL_V1

namespace Sched

/-- MicroPython `time.ticks_add` on a tick counter wrapping at
modulus P (the platform fixes P as a power of two; the embedding
keeps it a parameter). -/
def ticks_add (P t d : Nat) : Nat :=
  (t + d) % P

/-- The value of `next_log_time` after n scheduler firings
(V2 main.py line 111, V1 main.py line 153): each firing replaces the
due tick by `ticks_add` of its previous value and the fixed interval,
never by the current time. -/
def next_due (P t0 I : Nat) : Nat → Nat
  | 0 => t0
  | n + 1 => ticks_add P (next_due P t0 I n) I

end Sched

namespace Main

/-- The flight computer states (V2 main.py lines 29-35). -/
inductive FCState where
  | BOOT
  | INIT_FAIL
  | STANDBY
  | ARMED
  | LOGGING
  | POST_FLIGHT
  | FAULT
deriving DecidableEq

/-- The arming behaviour of one `manage_state` call, as a function of
the current state and the elapsed time `ticks_diff(now, enter)` in
milliseconds (V2 main.py lines 89-93): in STANDBY, when the elapsed
time strictly exceeds `standby_duration_s * 1000`, call
`enable_motion_detection` with the configured threshold (recorded as
an event) and change state to ARMED; otherwise stay.
`enable_motion_detection` is invoked in no other branch of
`manage_state`, and no branch ever sets the state back to STANDBY, so
every other state is inert for arming and is modelled as such. -/
def step_arm (d th : Nat) (s : FCState) (elapsed : Int) :
    FCState × List Nat :=
  match s with
  | FCState.STANDBY =>
      if elapsed > (d * 1000 : Int) then (FCState.ARMED, [th])
      else (FCState.STANDBY, [])
  | s => (s, [])

/-- Iterating `step_arm` over a sequence of loop iterations, each with
its observed elapsed time, collecting the arming events. -/
def run_arm (d th : Nat) : FCState → List Int → FCState × List Nat
  | s, [] => (s, [])
  | s, e :: es =>
      match step_arm d th s e with
      | (s1, evs) =>
          match run_arm d th s1 es with
          | (s2, evs2) => (s2, evs ++ evs2)

/-- The part of the flight computer state that the log-file invariant
concerns: the current FCState and whether `log_file` is open. -/
structure LogSt where
  state : FCState
  logOpen : Bool
deriving DecidableEq

/-- One `manage_state` iteration in the LOGGING state
(V2 main.py lines 107-115): when the sample slot is due, `_log_data`
runs and on a sensor-read or log-write failure changes the state to
FAULT without touching the log file (lines 176-184); afterwards, when
the logging duration has elapsed, `_close_log_file` closes the file
and the state becomes POST_FLIGHT (lines 113-115, 186-191). -/
def logging_iter (due sampleOk durationDone : Bool) (st : LogSt) : LogSt :=
  let st1 := if due && !sampleOk then { st with state := FCState.FAULT } else st
  if durationDone then { state := FCState.POST_FLIGHT, logOpen := false }
  else st1

end Main

namespace Logger

/-- The file-numbering loop of `_prepare_log_file` (V2 main.py lines
155-163, V1 main.py lines 100-110): starting from the given number,
while a file with the current number exists, move to the next number;
select the first number with no existing file.  `existing` is the set
of sequence numbers whose file exists, and the fuel bounds the loop
(each iteration that advances consumes a distinct member of
`existing`, so `existing.length + 1` steps always suffice). -/
def scanFrom (existing : List Nat) : Nat → Nat → Option Nat
  | 0, _ => none
  | fuel + 1, n =>
      if n ∈ existing then scanFrom existing fuel (n + 1) else some n

/-- The sequence number selected by `_prepare_log_file`: the scan
starts at 1 (V2 main.py line 155). -/
def prepare_file_number (existing : List Nat) : Option Nat :=
  scanFrom existing (existing.length + 1) 1

end Logger

/-! Helper lemmas shared by the claim theorems. -/

/-- A `manage_state` call in any state other than STANDBY produces no
arming event and leaves the arming projection unchanged. -/
theorem step_arm_inert (d th : Nat) (s : Main.FCState)
    (hs : s ≠ Main.FCState.STANDBY) (e : Int) :
    Main.step_arm d th s e = (s, []) := by
  cases s
  case STANDBY => exact absurd rfl hs
  all_goals rfl

/-- Iterating from any state other than STANDBY never arms. -/
theorem run_arm_inert (d th : Nat) (s : Main.FCState)
    (hs : s ≠ Main.FCState.STANDBY) (es : List Int) :
    Main.run_arm d th s es = (s, []) := by
  induction es with
  | nil => rfl
  | cons e es ih => simp [Main.run_arm, step_arm_inert d th s hs e, ih]

/-- Soundness of the file-numbering scan: a selected number has no
existing file, is at least the starting number, and every smaller
number from the start onwards has an existing file. -/
theorem scanFrom_sound (existing : List Nat) :
    ∀ fuel n k, Logger.scanFrom existing fuel n = some k →
      k ∉ existing ∧ n ≤ k ∧ ∀ m, n ≤ m → m < k → m ∈ existing := by
  intro fuel
  induction fuel with
  | zero =>
      intro n k h
      simp [Logger.scanFrom] at h
  | succ f ih =>
      intro n k h
      by_cases hn : n ∈ existing
      · simp only [Logger.scanFrom, if_pos hn] at h
        obtain ⟨hk, hnk, hall⟩ := ih (n + 1) k h
        refine ⟨hk, by omega, fun m hm1 hm2 => ?_⟩
        rcases Nat.lt_or_ge m (n + 1) with hlt | hge
        · have hmn : m = n := by omega
          exact hmn ▸ hn
        · exact hall m hge hm2
      · simp only [Logger.scanFrom, if_neg hn] at h
        injection h with h
        subst h
        exact ⟨hn, Nat.le_refl n, fun m hm1 hm2 => absurd hm2 (by omega)⟩

/-! The claims. -/

/-- Claim C1, counterexample: with prior interrupt-enable value 0x02,
enabling and then disabling motion detection leaves the
interrupt-enable register at 0x00, not at 0x02 — `enable` overwrites
the register with the constant 0x10 instead of or-ing the bit in, so
the pre-enable value is not restored bit-for-bit. -/
theorem enable_disable_clobbers_cex :
    ADXL343.disable_motion_detection
      (ADXL343.enable_motion_detection 18 (fun _ => 0x02)) 0x2E ≠ 0x02 := by
  decide

/-- Claim C1, amended: `enable_motion_detection` overwrites the
interrupt-enable register with exactly 0x10 (it is a plain write, not
a read-modify-write), so enabling then disabling always leaves the
register at 0x00; the pre-enable value is restored if and only if it
was 0x00. -/
theorem enable_disable_int_enable_zero (th : Nat) (r : ADXL343.RegFile) :
    ADXL343.disable_motion_detection
      (ADXL343.enable_motion_detection th r) 0x2E = 0
    ∧ (ADXL343.disable_motion_detection
        (ADXL343.enable_motion_detection th r) 0x2E = r 0x2E ↔ r 0x2E = 0) := by
  have h : ADXL343.disable_motion_detection
      (ADXL343.enable_motion_detection th r) 0x2E = 0 := by
    simp [ADXL343.disable_motion_detection, ADXL343.enable_motion_detection,
      ADXL343.writeReg]
    decide
  refine ⟨h, ?_⟩
  rw [h]
  exact ⟨fun hh => hh.symm, fun hh => hh.symm⟩

/-- Claim C2, evaluation at the failing input: the decoded temperature
is a natural-number-valued Python integer for every input, so it is
never negative; at the raw bytes (0x80, 0x00), whose shifted value
0x800 has bit 11 set, the code yields 63488 instead of a negative
value — or-ing with 0xF000 cannot make an unbounded Python integer
negative, contradicting the source comment that it sign-extends to a
16-bit negative number. -/
theorem temp_decode_never_negative :
    (∀ d3 d4 : Nat, 0 ≤ MPL_V2.temp_raw_int d3 d4)
    ∧ MPL_V2.temp_raw_int 0x80 0x00 = 63488 :=
  ⟨fun _ _ => Int.natCast_nonneg _, by decide⟩

/-- Claim C3, counterexample: with a 10-second standby duration, at
elapsed time exactly 10000 ms the STANDBY branch does not fire — the
guard is the strict comparison `elapsed_time > standby_duration_s *
1000` — so the machine stays in STANDBY and does not arm, contrary to
the claim that it transitions at or after the duration. -/
theorem standby_exact_duration_stays_cex :
    Main.step_arm 10 50 Main.FCState.STANDBY 10000
      = (Main.FCState.STANDBY, []) := by
  decide

/-- Claim C3, amended: from STANDBY, while every observed elapsed time
is at most the configured duration the machine stays in STANDBY and
never arms; as soon as some iteration observes an elapsed time
strictly greater than the duration, the machine arms motion detection
with the configured threshold exactly once over the whole run. -/
theorem standby_arming_strict (d th : Nat) (es : List Int) :
    ((∀ e ∈ es, e ≤ (d * 1000 : Int)) →
      Main.run_arm d th Main.FCState.STANDBY es = (Main.FCState.STANDBY, []))
    ∧ ((∃ e ∈ es, (d * 1000 : Int) < e) →
      (Main.run_arm d th Main.FCState.STANDBY es).2 = [th]) := by
  induction es with
  | nil =>
      refine ⟨fun _ => rfl, ?_⟩
      rintro ⟨e, he, -⟩
      cases he
  | cons e es ih =>
      constructor
      · intro h
        have he : e ≤ (d * 1000 : Int) := h e (List.mem_cons_self e es)
        have hstep : Main.step_arm d th Main.FCState.STANDBY e
            = (Main.FCState.STANDBY, []) := by
          simp [Main.step_arm, not_lt.mpr he]
        have htail := ih.1 (fun x hx => h x (List.mem_cons_of_mem e hx))
        simp [Main.run_arm, hstep, htail]
      · rintro ⟨e0, he0, hgt⟩
        by_cases hfire : (d * 1000 : Int) < e
        · have hstep : Main.step_arm d th Main.FCState.STANDBY e
              = (Main.FCState.ARMED, [th]) := by
            simp [Main.step_arm, hfire]
          have htail := run_arm_inert d th Main.FCState.ARMED (by simp) es
          simp [Main.run_arm, hstep, htail]
        · have hstep : Main.step_arm d th Main.FCState.STANDBY e
              = (Main.FCState.STANDBY, []) := by
            simp [Main.step_arm, hfire]
          have he0' : e0 ∈ es := by
            rcases List.mem_cons.mp he0 with rfl | hmem
            · exact absurd hgt hfire
            · exact hmem
          have htail := ih.2 ⟨e0, he0', hgt⟩
          simp [Main.run_arm, hstep]
          simpa using htail

/-- Witness for the amended claim C3 at concrete runs: with a
10-second duration and threshold 50, the run [5000, 10000] stays in
STANDBY without arming, and the run [10000, 10001] arms exactly once
with threshold 50. -/
theorem standby_arming_strict_wit :
    Main.run_arm 10 50 Main.FCState.STANDBY [5000, 10000]
      = (Main.FCState.STANDBY, [])
    ∧ (Main.run_arm 10 50 Main.FCState.STANDBY [10000, 10001]).2 = [50] :=
  ⟨(standby_arming_strict 10 50 [5000, 10000]).1 (by decide),
   (standby_arming_strict 10 50 [10000, 10001]).2 ⟨10001, by decide, by decide⟩⟩

/-- Claim C4, counterexample: in LOGGING with the log file open, a
due sample whose read or write fails (before the logging duration has
elapsed) moves the machine to the terminal FAULT state with the log
file still open — `_log_data` changes state without closing the file,
so the open-file-iff-Logging invariant fails. -/
theorem logging_fault_open_log_cex :
    (Main.logging_iter true false false
      ⟨Main.FCState.LOGGING, true⟩).state = Main.FCState.FAULT
    ∧ (Main.logging_iter true false false
      ⟨Main.FCState.LOGGING, true⟩).logOpen = true := by
  decide

/-- Claim C4, amended: on the Logging-to-Fault transition taken when a
sample read or log write fails, the log file is left exactly as it
was (in particular open if it was open), so the terminal Fault state
can hold an open log file; the file is closed only by the
duration-elapsed transition to POST_FLIGHT, after which no open log
file remains. -/
theorem logging_transitions_log_file :
    ∀ b : Bool,
      Main.logging_iter true false false ⟨Main.FCState.LOGGING, b⟩
        = ⟨Main.FCState.FAULT, b⟩
      ∧ ∀ due ok : Bool,
        Main.logging_iter due ok true ⟨Main.FCState.LOGGING, b⟩
          = ⟨Main.FCState.POST_FLIGHT, false⟩ := by
  decide

/-- Claim C5, confirmed: after N scheduler firings with interval I,
the due tick equals the initial tick plus N times I in the wraparound
arithmetic of the tick counter (modulus P), because every firing
advances the due tick by exactly one interval from its previous
value. -/
theorem next_due_linear (P t0 I N : Nat) (h : t0 < P) :
    Sched.next_due P t0 I N = (t0 + N * I) % P := by
  induction N with
  | zero => simpa [Sched.next_due] using (Nat.mod_eq_of_lt h).symm
  | succ n ih =>
      simp only [Sched.next_due, Sched.ticks_add]
      rw [ih, Nat.mod_add_mod]
      congr 1
      ring

/-- Witness for claim C5: three firings of interval 10 from tick 5 on
the 2^30 counter land on tick (5 + 3 * 10) mod 2^30. -/
theorem next_due_linear_wit :
    Sched.next_due (2 ^ 30) 5 10 3 = (5 + 3 * 10) % 2 ^ 30 :=
  next_due_linear (2 ^ 30) 5 10 3 (by norm_num)

/-- Claim C6, counterexample: the V1 `get_raw_acceleration` has no
exception handler, so on a bus OSError it propagates the error and
does not return the neutral reading (0, 0, 0). -/
theorem v1_accel_error_propagates_cex :
    ADXL343.get_raw_acceleration_V1 (Except.error ())
      ≠ Except.ok (0, 0, 0) := by
  simp [ADXL343.get_raw_acceleration_V1]

/-- Claim C6, amended: the fail-safe policy holds in V2 only — on a
bus failure the V2 `get_raw_acceleration` returns (0, 0, 0) and the
V2 `get_raw_data` returns (0, 0), while the V1 versions of both
propagate the OSError to the caller. -/
theorem bus_failure_neutral_split :
    (∀ e : Unit, ADXL343.get_raw_acceleration_V2 (Except.error e) = (0, 0, 0))
    ∧ (∀ e : Unit, MPL_V2.get_raw_data (Except.error e) = (0, 0))
    ∧ (∀ e : Unit,
        ADXL343.get_raw_acceleration_V1 (Except.error e) = Except.error e)
    ∧ (∀ e : Unit, MPL_V1.get_raw_data (Except.error e) = Except.error e) :=
  ⟨fun _ => rfl, fun _ => rfl, fun _ => rfl, fun _ => rfl⟩

/-- Claim C7, counterexample: the raw bytes (0, 0, 1) exceed (0, 0, 0)
as a 24-bit big-endian number, yet both decode to pressure 0 — the
right shift by 4 collapses inputs that differ only in the low 4 bits,
so the decode is not strictly monotone. -/
theorem pressure_strict_mono_cex :
    MPL_V2.raw24 0 0 1 > MPL_V2.raw24 0 0 0
    ∧ MPL_V2.pressure_raw 0 0 1 = MPL_V2.pressure_raw 0 0 0 := by
  decide

/-- Claim C7, amended: the pressure decode is monotone non-strictly —
if the 24-bit big-endian value of one byte triple is at most that of
another, the decoded pressures compare the same way. -/
theorem pressure_mono_le (a0 a1 a2 b0 b1 b2 : Nat)
    (h : MPL_V2.raw24 b0 b1 b2 ≤ MPL_V2.raw24 a0 a1 a2) :
    MPL_V2.pressure_raw b0 b1 b2 ≤ MPL_V2.pressure_raw a0 a1 a2 := by
  simp only [MPL_V2.pressure_raw, Nat.shiftRight_eq_div_pow]
  exact Nat.div_le_div_right h

/-- Witness for the amended claim C7: raw bytes (0, 0, 255) are at
most (0, 1, 0) as 24-bit values, and the decoded pressures compare
accordingly. -/
theorem pressure_mono_le_wit :
    MPL_V2.pressure_raw 0 0 255 ≤ MPL_V2.pressure_raw 0 1 0 :=
  pressure_mono_le 0 1 0 0 0 255 (by decide)

/-- Claim C8, confirmed: when the motion capability is not armed,
`motion_detected` returns false and performs no bus transaction; when
it is armed, it performs exactly one read of the interrupt-source
register and returns true exactly when the activity bit 0x10 of the
byte read is set. -/
theorem motion_detected_gating :
    (∀ bus : Except Unit Nat, ADXL343.motion_detected false bus = (false, []))
    ∧ (∀ src : Nat,
        (ADXL343.motion_detected true (Except.ok src)).2
          = [ADXL343.Tx.readIntSource]
        ∧ ((ADXL343.motion_detected true (Except.ok src)).1 = true
            ↔ src &&& 0x10 ≠ 0)) := by
  refine ⟨fun bus => rfl, fun src => ⟨rfl, ?_⟩⟩
  simp [ADXL343.motion_detected, Nat.pos_iff_ne_zero]

/-- Claim C9, confirmed: whenever the numbering scan of
`_prepare_log_file` selects a number, that number has no existing
file (so no existing file is overwritten), it is at least 1, and
every smaller number from 1 on has an existing file — it is the first
unused number; in particular with files 1 through 5 existing the
selected number is 6. -/
theorem prepare_first_unused :
    (∀ existing k, Logger.prepare_file_number existing = some k →
      k ∉ existing ∧ 1 ≤ k ∧ ∀ m, 1 ≤ m → m < k → m ∈ existing)
    ∧ Logger.prepare_file_number [1, 2, 3, 4, 5] = some 6 :=
  ⟨fun existing k h => scanFrom_sound existing (existing.length + 1) 1 k h,
   by decide⟩

/-- Witness for claim C9: with files 1 through 5 existing the scan
selects 6, and 6 is not among the existing numbers. -/
theorem prepare_first_unused_wit :
    Logger.prepare_file_number [1, 2, 3, 4, 5] = some 6
    ∧ 6 ∉ ([1, 2, 3, 4, 5] : List Nat) :=
  ⟨by decide, (prepare_first_unused.1 [1, 2, 3, 4, 5] 6 (by decide)).1⟩

/-- Claim C10, confirmed: on every 5-byte input the V1 and V2
altimeter decodes agree — both assemble the pressure big-endian from
three bytes and shift right by 4, and both assemble the temperature
big-endian from two bytes, shift right by 4, and apply the same
bit-11 adjustment. -/
theorem decode_v1_eq_v2 (d0 d1 d2 d3 d4 : Nat) :
    MPL_V1.get_raw_decode d0 d1 d2 d3 d4
      = MPL_V2.get_raw_decode d0 d1 d2 d3 d4 := rfl

end RocketLogger
